import Mathlib

/-!
Verification development for the Mini-me repository.

Part 1 embeds the Airtable automation script
`02-wordpress/06-Auto-Sync-Stock/airtable-automation-bidirectional.js`
(anti-loop guard `shouldSync` and the webhook forwarding main body).

Part 2 embeds the Express/Airtable backend from
`04-4more-apps/complete-deployment-guide.md` (helper `findRecordByField`,
`authenticateToken` middleware, and the auth/product/bulk route handlers).

Times are modelled as integers (milliseconds since epoch), matching the
JavaScript arithmetic `(now - lastSyncTime) / (1000 * 60)` exactly:
`minutesSinceSync < 1` over the reals holds iff `now - lastSyncTime < 60000`
over the integers.
-/

namespace MiniMe

namespace SyncAutomation

def WEBHOOK_URL : String := "https://webhook.4more.ca/webhook/airtable"

def WEBHOOK_SECRET : String := "your_webhook_secret"

/-- `SYNC_THRESHOLD_MINUTES = 1` from the script configuration. -/
def SYNC_THRESHOLD_MINUTES : Int := 1

/-- The fields of a Products record that the automation script reads:
`Last WooCommerce Sync` (a datetime, `none` when empty, in epoch ms),
`Product Name`, `SKU`, `Stock Quantity`. -/
structure SyncRecord where
  id : String
  lastWooSync : Option Int
  productName : String
  sku : String
  stockQuantity : Option Int
deriving DecidableEq, Repr

/-- Embedding of `shouldSync(record)`: for `triggerType === 'create'` it
returns true immediately; otherwise it reads `Last WooCommerce Sync` and,
when set, suppresses (returns false) exactly when
`(now - lastSyncTime) / 60000 < SYNC_THRESHOLD_MINUTES`, i.e.
`now - lastSyncTime < 60000`. -/
def shouldSync (triggerType : String) (record : SyncRecord) (now : Int) : Bool :=
  if triggerType = "create" then
    true
  else
    match record.lastWooSync with
    | none => true
    | some lastSyncTime =>
        if now - lastSyncTime < SYNC_THRESHOLD_MINUTES * 60000 then false else true

/-- The `record.fields` object added to the payload for non-delete events. -/
structure WebhookFields where
  productName : String
  sku : String
  stockQuantity : Option Int
deriving DecidableEq, Repr

/-- The webhook JSON envelope `\x7btype, base:\x7bid\x7d, record:\x7bid, fields?\x7d\x7d`. -/
structure WebhookEnvelope where
  type : String
  baseId : String
  recordId : String
  fields : Option WebhookFields
deriving DecidableEq, Repr

/-- One outgoing POST: target URL, the `X-Airtable-Signature` header value,
and the JSON body. -/
structure WebhookRequest where
  url : String
  signatureHeader : String
  body : WebhookEnvelope
deriving DecidableEq, Repr

/-- Embedding of the `webhookData` construction: `type` is
`record.<triggerType>d`, `base.id` and `record.id` are copied, and
`record.fields` (Product Name, SKU, Stock Quantity) is added exactly when
`triggerType !== 'delete'`. -/
def webhookPayload (triggerType baseId : String) (record : SyncRecord) : WebhookEnvelope :=
  { type := "record." ++ triggerType ++ "d"
    baseId := baseId
    recordId := record.id
    fields :=
      if triggerType ≠ "delete" then
        some { productName := record.productName
               sku := record.sku
               stockQuantity := record.stockQuantity }
      else none }

/-- Embedding of the script main body, returning the list of webhook POSTs
attempted: none when `recordId` is missing, none when the record is not
found, none when `shouldSync` suppresses, and exactly one otherwise.
`fetched` is the result of `table.selectRecordAsync(recordId)`. -/
def runAutomation (recordId : Option String) (fetched : Option SyncRecord)
    (triggerType : String) (now : Int) (baseId : String) : List WebhookRequest :=
  match recordId with
  | none => []
  | some _ =>
      match fetched with
      | none => []
      | some record =>
          if shouldSync triggerType record now then
            [{ url := WEBHOOK_URL
               signatureHeader := WEBHOOK_SECRET
               body := webhookPayload triggerType baseId record }]
          else []

/-- A record-updated automation event: who edited, which fields changed,
and the record state. Only `record` is ever passed to the script. -/
structure UpdateEvent where
  editorId : String
  changedFields : List String
  record : SyncRecord
deriving DecidableEq, Repr

/-- The suppression decision the script makes on an update event. -/
def shouldSyncEvent (e : UpdateEvent) (now : Int) : Bool :=
  shouldSync "update" e.record now

end SyncAutomation

namespace Backend

/-- Modelled from the spec: the `bcryptjs` library (an external dependency,
not part of this repository). A hash is an opaque tag of the password;
`bcrypt.compare(password, hash)` succeeds iff `hash` hashes `password`. -/
def bcryptHash (password : String) : String := "bcrypt$" ++ password

/-- `bcrypt.compare(password, hash)`. -/
def bcryptCompare (password hash : String) : Bool := hash = bcryptHash password

def JWT_SECRET : String := "your-secret-key"

/-- Modelled from the spec: the `jsonwebtoken` library (an external
dependency, not part of this repository). `jwt.sign` embeds the email under
the secret. -/
def jwtSign (email secret : String) : String := "jwt." ++ secret ++ "." ++ email

/-- `jwt.verify`: returns the decoded email, or `none` when verification
fails. -/
def jwtVerify (token secret : String) : Option String :=
  let tag := "jwt." ++ secret ++ "."
  if tag.isPrefixOf token then some (token.drop tag.length) else none

/-- A Users-table record: `Email`, `Password` (bcrypt hash), `Name`,
`TotalScans` (`none` when the field is empty; JS `|| 0` supplies 0), and
`LastActive`. -/
structure User where
  id : String
  email : String
  passwordHash : String
  name : String
  totalScans : Option Nat
  lastActive : String
deriving DecidableEq, Repr

/-- A Products-table record, with the fields the verified routes read or
write: `Barcode`, `Name`, `ScannedByEmail`, `ScannedAt`, `LastModified`. -/
structure Product where
  id : String
  barcode : String
  name : String
  scannedByEmail : String
  scannedAt : String
  lastModified : String
deriving DecidableEq, Repr

/-- A ScanHistory-table record (`Product` link is absent for deletions). -/
structure ScanEntry where
  userId : String
  productId : Option String
  barcode : String
  action : String
  timestamp : String
  userEmail : String
  productName : String
deriving DecidableEq, Repr

/-- The Airtable base state the backend reads and writes, plus a counter
for fresh record ids. -/
structure BackendState where
  users : List User
  products : List Product
  scanHistory : List ScanEntry
  nextId : Nat
deriving DecidableEq, Repr

def freshId (st : BackendState) : String := "rec" ++ toString st.nextId

/-- Embedding of `findRecordByField(tableName, fieldName, value)`: the
Airtable query is the `records` list filtered by `pred` (the
`filterByFormula` equality on the field) with `maxRecords: 1`; the
function returns the first match or `null`, and its own `catch` turns any
query error (`fail = true`) into `null` as well. -/
def findRecordByField {α : Type} (records : List α) (pred : α → Bool)
    (fail : Bool) : Option α :=
  if fail then none else records.find? pred

/-- An HTTP response: status code and flattened JSON body fields. -/
structure ApiResponse where
  status : Nat
  body : List (String × String)
deriving DecidableEq, Repr

/-- Replace the user record with the given id. -/
def updateUserRecord (st : BackendState) (uid : String) (f : User → User) : BackendState :=
  { st with users := st.users.map (fun u => if u.id == uid then f u else u) }

/-- Embedding of `POST /api/auth/login`: find the user by `Email` (401
`Invalid credentials` when absent), check the password with
`bcrypt.compare` (401 `Invalid credentials` on mismatch), then refresh
`LastActive` and answer 200 with a token and the user profile. -/
def loginHandler (st : BackendState) (email password : String)
    (findFail : Bool) (now : String) : BackendState × ApiResponse :=
  match findRecordByField st.users (fun u => u.email == email) findFail with
  | none => (st, ⟨401, [("error", "Invalid credentials")]⟩)
  | some user =>
      if bcryptCompare password user.passwordHash = false then
        (st, ⟨401, [("error", "Invalid credentials")]⟩)
      else
        (updateUserRecord st user.id (fun u => { u with lastActive := now }),
         ⟨200, [("token", jwtSign user.email JWT_SECRET), ("id", user.id),
                ("email", user.email), ("name", user.name)]⟩)

/-- `authHeader && authHeader.split(' ')[1]`: the bearer token, where a
missing header, a missing second word, or an empty second word (all falsy
in JS) yield no token. -/
def tokenOf (authHeader : Option String) : Option String :=
  match authHeader with
  | none => none
  | some h =>
      match (h.splitOn " ").get? 1 with
      | none => none
      | some t => if t = "" then none else some t

/-- Result of the authentication middleware: a denial response, or the
authenticated user passed to the route handler as `req.user`. -/
inductive AuthOutcome where
  | denied (resp : ApiResponse)
  | allowed (user : User)
deriving DecidableEq, Repr

/-- Embedding of the `authenticateToken` middleware: 401
`Access token required` without a token; 403 `Invalid token` when
`jwt.verify` throws; 403 `User not found` when the decoded email matches no
user (also when the user lookup itself errors, since `findRecordByField`
returns `null` then); otherwise the route handler runs with `req.user`. -/
def authenticateToken (users : List User) (authHeader : Option String)
    (findFail : Bool) : AuthOutcome :=
  match tokenOf authHeader with
  | none => .denied ⟨401, [("error", "Access token required")]⟩
  | some token =>
      match jwtVerify token JWT_SECRET with
      | none => .denied ⟨403, [("error", "Invalid token")]⟩
      | some email =>
          match findRecordByField users (fun u => u.email == email) findFail with
          | none => .denied ⟨403, [("error", "User not found")]⟩
          | some user => .allowed user

/-- A route guarded by `authenticateToken`: on denial the middleware
responds and the handler (hence its Airtable reads and writes) never
runs. -/
def protectedRoute (handler : User → BackendState → BackendState × ApiResponse)
    (st : BackendState) (authHeader : Option String) (findFail : Bool) :
    BackendState × ApiResponse :=
  match authenticateToken st.users authHeader findFail with
  | .denied resp => (st, resp)
  | .allowed user => handler user st

/-- The route table of `server.js`: method, path, and whether the
`authenticateToken` middleware is installed on the route. -/
structure Route where
  method : String
  path : String
  usesAuthMiddleware : Bool
deriving DecidableEq, Repr

def routes : List Route :=
  [ ⟨"POST", "/api/auth/register", false⟩,
    ⟨"POST", "/api/auth/login", false⟩,
    ⟨"POST", "/api/products/lookup", true⟩,
    ⟨"GET", "/api/products", true⟩,
    ⟨"GET", "/api/products/:barcode", true⟩,
    ⟨"POST", "/api/products", true⟩,
    ⟨"POST", "/api/products/:barcode/image", true⟩,
    ⟨"DELETE", "/api/products/:barcode", true⟩,
    ⟨"GET", "/api/stats", true⟩,
    ⟨"GET", "/api/history", true⟩,
    ⟨"GET", "/api/export/csv", true⟩,
    ⟨"POST", "/api/products/bulk", true⟩,
    ⟨"GET", "/api/settings", true⟩,
    ⟨"POST", "/api/settings", true⟩ ]

/-- Request body of `POST /api/products` (the fields the model tracks). -/
structure ProductBody where
  barcode : String
  name : String
deriving DecidableEq, Repr

def addScanEntry (st : BackendState) (e : ScanEntry) : BackendState :=
  { st with scanHistory := st.scanHistory ++ [e] }

/-- `updateRecord(TABLES.USERS, req.user.id, \x7bTotalScans:
(req.user.TotalScans || 0) + 1, LastActive: ...\x7d)` — note it adds 1 to
the `TotalScans` fetched at authentication time (`req.user`). -/
def bumpUserScans (st : BackendState) (user : User) (now : String) : BackendState :=
  updateUserRecord st user.id
    (fun u => { u with totalScans := some (user.totalScans.getD 0 + 1), lastActive := now })

/-- The `productData` written over an existing product by
`POST /api/products`: the request fields plus `ScannedByEmail` and
`LastModified`. -/
def postUpdatedProduct (existing : Product) (body : ProductBody) (user : User)
    (now : String) : Product :=
  { existing with name := body.name, scannedByEmail := user.email, lastModified := now }

/-- Embedding of `POST /api/products` (after authentication): look up the
product by `Barcode`; update it when found, otherwise create it with a
fresh id and `ScannedAt`; then append one ScanHistory record whose
`Action` is `update` when the product existed and `scan` otherwise, and
bump the requesting user's `TotalScans`/`LastActive`. -/
def postProduct (user : User) (body : ProductBody) (findFail : Bool)
    (now : String) (st : BackendState) : BackendState × ApiResponse :=
  match findRecordByField st.products (fun p => p.barcode == body.barcode) findFail with
  | some existing =>
      let updated : Product := postUpdatedProduct existing body user now
      let st₁ := { st with
        products := st.products.map (fun p => if p.id == existing.id then updated else p) }
      let st₂ := addScanEntry st₁
        ⟨user.id, some existing.id, updated.barcode, "update", now, user.email, updated.name⟩
      let st₃ := bumpUserScans st₂ user now
      (st₃, ⟨200, [("id", existing.id), ("barcode", updated.barcode), ("name", updated.name)]⟩)
  | none =>
      let pid := freshId st
      let newProd : Product := ⟨pid, body.barcode, body.name, user.email, now, now⟩
      let st₁ := { st with products := st.products ++ [newProd], nextId := st.nextId + 1 }
      let st₂ := addScanEntry st₁
        ⟨user.id, some pid, body.barcode, "scan", now, user.email, body.name⟩
      let st₃ := bumpUserScans st₂ user now
      (st₃, ⟨200, [("id", pid), ("barcode", body.barcode), ("name", body.name)]⟩)

/-- Embedding of `GET /api/products/:barcode`: 404 `Product not found`
when `findRecordByField` yields `null` (no match, or the query errored),
200 with the product otherwise. -/
def getProductByBarcode (st : BackendState) (barcode : String)
    (findFail : Bool) : ApiResponse :=
  match findRecordByField st.products (fun p => p.barcode == barcode) findFail with
  | none => ⟨404, [("error", "Product not found")]⟩
  | some p => ⟨200, [("id", p.id), ("barcode", p.barcode), ("name", p.name)]⟩

/-- One barcode submitted to `POST /api/products/bulk`: the provider
lookup result (`none` falls back to `Product <barcode>`), and whether the
`createRecord` call for it throws. -/
structure BulkItem where
  barcode : String
  lookupName : Option String
  createFails : Bool
deriving DecidableEq, Repr

/-- The per-item body of the bulk loop: no barcode lookup against the
Products table — `createRecord` is called unconditionally. -/
def bulkCreateProduct (user : User) (item : BulkItem) (now : String)
    (st : BackendState) : BackendState × Product :=
  let name :=
    match item.lookupName with
    | some n => n
    | none => "Product " ++ item.barcode
  let p : Product := ⟨freshId st, item.barcode, name, user.email, now, now⟩
  ({ st with products := st.products ++ [p], nextId := st.nextId + 1 }, p)

/-- Embedding of the `for (const barcode of barcodes)` loop with its
per-item `try/catch`: a failing item is recorded in `errors` and the loop
continues; a succeeding item's product is recorded in `results`. -/
def bulkProcess (user : User) (now : String) :
    List BulkItem → BackendState → BackendState × List Product × List (String × String)
  | [], st => (st, [], [])
  | item :: rest, st =>
      if item.createFails then
        let r := bulkProcess user now rest st
        (r.1, r.2.1, (item.barcode, "create failed") :: r.2.2)
      else
        let c := bulkCreateProduct user item now st
        let r := bulkProcess user now rest c.1
        (r.1, c.2 :: r.2.1, r.2.2)

/-- The `POST /api/products/bulk` response: `success: results.length`,
`failed: errors.length`, and the failing barcodes. -/
structure BulkResponse where
  success : Nat
  failed : Nat
  errorBarcodes : List String
deriving DecidableEq, Repr

def bulkRoute (user : User) (items : List BulkItem) (now : String)
    (st : BackendState) : BackendState × BulkResponse :=
  let r := bulkProcess user now items st
  (r.1, ⟨r.2.1.length, r.2.2.length, r.2.2.map Prod.fst⟩)

/-- How many Products records carry the given barcode. -/
def barcodeCount (st : BackendState) (b : String) : Nat :=
  st.products.countP (fun p => p.barcode == b)

/-- The invariant the spec names: each barcode is carried by at most one
product record. -/
def barcodeUnique (st : BackendState) : Prop :=
  ∀ b : String, barcodeCount st b ≤ 1

/-- Airtable record ids are distinct. -/
def idsNodup (st : BackendState) : Prop :=
  (st.products.map Product.id).Nodup

/-- What each route's outer `catch` clause does, transcribed from
`server.js`: whether it calls `console.error`, the status it sends, and
whether the JSON body is `\x7berror: error.message\x7d`. -/
structure CatchSpec where
  logsError : Bool
  status : Nat
  bodyIsErrorMessage : Bool
deriving DecidableEq, Repr

def catchBehavior : List (String × CatchSpec) :=
  [ ("POST /api/auth/register", ⟨true, 500, true⟩),
    ("POST /api/auth/login", ⟨true, 500, true⟩),
    ("POST /api/products/lookup", ⟨false, 500, true⟩),
    ("GET /api/products", ⟨true, 500, true⟩),
    ("GET /api/products/:barcode", ⟨false, 500, true⟩),
    ("POST /api/products", ⟨true, 500, true⟩),
    ("POST /api/products/:barcode/image", ⟨false, 500, true⟩),
    ("DELETE /api/products/:barcode", ⟨false, 500, true⟩),
    ("GET /api/stats", ⟨true, 500, true⟩),
    ("GET /api/history", ⟨false, 500, true⟩),
    ("GET /api/export/csv", ⟨false, 500, true⟩),
    ("POST /api/products/bulk", ⟨false, 500, true⟩),
    ("GET /api/settings", ⟨false, 500, true⟩),
    ("POST /api/settings", ⟨false, 500, true⟩) ]

/-- Query of `GET /api/products`; a JS-falsy (absent or empty) parameter
is `none`. -/
structure ProductsQuery where
  page : Nat
  limit : Nat
  search : Option String
  status : Option String
  category : Option String
deriving DecidableEq, Repr

/-- The `filterFormula` string the `GET /api/products` handler builds from
`search`, `status` and `category`. -/
def buildProductsFilter (search status category : Option String) : String :=
  let filters :=
    (match search with
     | some s =>
         ["OR(SEARCH(\x27" ++ s ++ "\x27, LOWER({Name})), SEARCH(\x27" ++ s ++ "\x27, {Barcode}))"]
     | none => []) ++
    (match status with
     | some s => ["{Status} = \x27" ++ s ++ "\x27"]
     | none => []) ++
    (match category with
     | some c => ["{Category} = \x27" ++ c ++ "\x27"]
     | none => [])
  if filters.length > 0 then
    if filters.length > 1 then "AND(" ++ String.intercalate ", " filters ++ ")"
    else filters.headD ""
  else ""

/-- Embedding of the `GET /api/products` handler body. The handler builds
`filterFormula`, but the select options object it then evaluates is
`\x7bmaxRecords, pageSize, sort, filterByFormula\x7d` — and `filterByFormula`
is never declared anywhere in `server.js` (the built string sits in
`filterFormula`). Evaluating that shorthand property reads the undeclared
identifier and throws `ReferenceError: filterByFormula is not defined`
before the Airtable query runs; the route's `catch` then answers 500 with
`error.message`. -/
def getProductsHandler (_user : User) (q : ProductsQuery) (st : BackendState) :
    BackendState × ApiResponse :=
  let _filterFormula := buildProductsFilter q.search q.status q.category
  (st, ⟨500, [("error", "filterByFormula is not defined")]⟩)

/-- A concrete user for closed witnesses. -/
def sampleUser : User := ⟨"usr1", "a@b.c", bcryptHash "pw", "Alice", some 2, "t0"⟩

/-- A concrete base state for closed witnesses: one user, one product with
barcode `111`. -/
def sampleState : BackendState :=
  ⟨[sampleUser], [⟨"prod1", "111", "Thing", "a@b.c", "t0", "t0"⟩], [], 5⟩

end Backend

open SyncAutomation Backend

/-- C1 counterexample: the claim covers trigger types `create` and
`update` and asserts suppression exactly when `Last WooCommerce Sync` is
set and under a minute old — but on a `create` event with the timestamp
set to the current instant (0 minutes old), `shouldSync` still returns
`true`, because the script returns `true` for `create` before consulting
the timestamp. -/
theorem C1_create_event_counterexample :
    shouldSync "create" ⟨"recA", some 0, "", "", none⟩ 0 = true := rfl

/-- C1 (amended): `create` events are always forwarded without consulting
the timestamp; for `update` events, `shouldSync` returns `false` — and the
script sends no webhook POST — exactly when `Last WooCommerce Sync` is set
and the time since it is strictly less than one minute (60000 ms). -/
theorem C1_sync_threshold (r : SyncRecord) (now : Int) (rid baseId : String) :
    shouldSync "create" r now = true ∧
    (shouldSync "update" r now = false ↔
      ∃ t, r.lastWooSync = some t ∧ now - t < 60000) ∧
    (runAutomation (some rid) (some r) "update" now baseId = [] ↔
      shouldSync "update" r now = false) := by
  have hne : ¬ (("update" : String) = "create") := by decide
  refine ⟨rfl, ?_, ?_⟩
  · simp only [shouldSync, SYNC_THRESHOLD_MINUTES, if_neg hne, one_mul]
    cases hl : r.lastWooSync with
    | none => simp
    | some t =>
        by_cases hlt : now - t < 60000
        · simp [hlt]
        · simp [hlt]
  · simp only [runAutomation]
    by_cases hs : shouldSync "update" r now = true
    · simp [hs]
    · simp [hs]

/-- C2: when `shouldSync` does not suppress, the script sends exactly one
webhook POST, to `WEBHOOK_URL` with the `X-Airtable-Signature` shared
secret, whose body is `\x7btype, base:\x7bid\x7d, record:\x7bid, fields?\x7d\x7d` with
`type = record.<triggerType>d` and the record id of the triggering record;
`record.fields` (Product Name, SKU, Stock Quantity) is present exactly
when the trigger type is not `delete`. -/
theorem C2_webhook_envelope (rid baseId triggerType : String) (r : SyncRecord)
    (now : Int) (h : shouldSync triggerType r now = true) :
    runAutomation (some rid) (some r) triggerType now baseId =
      [{ url := WEBHOOK_URL
         signatureHeader := WEBHOOK_SECRET
         body := { type := "record." ++ triggerType ++ "d"
                   baseId := baseId
                   recordId := r.id
                   fields := if triggerType ≠ "delete" then
                       some ⟨r.productName, r.sku, r.stockQuantity⟩
                     else none } }] := by
  simp [runAutomation, h, webhookPayload]

/-- C2 witness: a concrete non-suppressed update event produces the single
expected POST. -/
theorem C2_webhook_envelope_witness :
    runAutomation (some "rec1") (some ⟨"rec1", none, "Widget", "SKU-1", some 5⟩)
        "update" 0 "appBase" =
      [{ url := WEBHOOK_URL
         signatureHeader := WEBHOOK_SECRET
         body := { type := "record." ++ "update" ++ "d"
                   baseId := "appBase"
                   recordId := "rec1"
                   fields := if ("update" : String) ≠ "delete" then
                       some ⟨"Widget", "SKU-1", some 5⟩
                     else none } }] :=
  C2_webhook_envelope "rec1" "appBase" "update" ⟨"rec1", none, "Widget", "SKU-1", some 5⟩ 0 rfl

/-- C3: the update-event suppression decision reads nothing but the
trigger type, the `Last WooCommerce Sync` value and the clock — two update
events with equal timestamps get the same decision regardless of editor or
changed fields; consequently any edit under a minute after a sync is
suppressed, and any event whose sync timestamp is at least a minute old is
forwarded. -/
theorem C3_suppression_noninterference (e₁ e₂ : UpdateEvent) (now : Int)
    (h : e₁.record.lastWooSync = e₂.record.lastWooSync) :
    shouldSyncEvent e₁ now = shouldSyncEvent e₂ now ∧
    (∀ t, e₁.record.lastWooSync = some t → now - t < 60000 →
        shouldSyncEvent e₁ now = false) ∧
    (∀ t, e₁.record.lastWooSync = some t → 60000 ≤ now - t →
        shouldSyncEvent e₁ now = true) := by
  have hne : ¬ (("update" : String) = "create") := by decide
  refine ⟨?_, ?_, ?_⟩
  · simp only [shouldSyncEvent, shouldSync, if_neg hne, h]
  · intro t ht hlt
    simp [shouldSyncEvent, shouldSync, if_neg hne, ht, SYNC_THRESHOLD_MINUTES, hlt]
  · intro t ht hge
    have hnlt : ¬ (now - t < 60000) := by omega
    simp [shouldSyncEvent, shouldSync, if_neg hne, ht, SYNC_THRESHOLD_MINUTES, hnlt]

/-- C3 witness: two concrete update events with different editors and
changed fields but the same sync timestamp get the same decision, and the
half-minute-old one is suppressed. -/
theorem C3_suppression_noninterference_witness :
    shouldSyncEvent ⟨"human-editor", ["Stock Quantity"], ⟨"rec9", some 0, "A", "S", none⟩⟩ 30000 =
      shouldSyncEvent ⟨"woo-sync", ["Product Name"], ⟨"rec9", some 0, "B", "T", some 3⟩⟩ 30000 ∧
    shouldSyncEvent ⟨"human-editor", ["Stock Quantity"], ⟨"rec9", some 0, "A", "S", none⟩⟩ 30000 =
      false := by
  have h := C3_suppression_noninterference
    ⟨"human-editor", ["Stock Quantity"], ⟨"rec9", some 0, "A", "S", none⟩⟩
    ⟨"woo-sync", ["Product Name"], ⟨"rec9", some 0, "B", "T", some 3⟩⟩ 30000 rfl
  exact ⟨h.1, h.2.1 0 rfl (by decide)⟩

/-- C6: `GET /api/products` never returns products — the handler passes
the undeclared identifier `filterByFormula` (the formula it built is in
`filterFormula`), so the select-options object literal throws
`ReferenceError: filterByFormula is not defined` and every request is
answered 500 with that message, the state untouched. -/
theorem C6_get_products_always_500 (user : User) (q : ProductsQuery) (st : BackendState) :
    getProductsHandler user q st =
      (st, ⟨500, [("error", "filterByFormula is not defined")]⟩) := rfl

/-- C7: register and login aside, every route installs `authenticateToken`;
a request without a bearer token is answered 401 `Access token required`,
one whose token fails `jwt.verify` is answered 403 `Invalid token`, and one
whose decoded user is absent from the Users table is answered 403
`User not found` — in all three cases with the state unchanged and without
the route handler (hence its Airtable reads and writes) running, whatever
that handler is. -/
theorem C7_auth_gate :
    (∀ r ∈ routes, r.path ≠ "/api/auth/register" → r.path ≠ "/api/auth/login" →
        r.usesAuthMiddleware = true) ∧
    (∀ (handler : User → BackendState → BackendState × ApiResponse)
        (st : BackendState) (findFail : Bool),
        protectedRoute handler st none findFail =
          (st, ⟨401, [("error", "Access token required")]⟩)) ∧
    (∀ (handler : User → BackendState → BackendState × ApiResponse)
        (st : BackendState) (hdr : Option String) (findFail : Bool) (token : String),
        tokenOf hdr = some token → jwtVerify token JWT_SECRET = none →
        protectedRoute handler st hdr findFail =
          (st, ⟨403, [("error", "Invalid token")]⟩)) ∧
    (∀ (handler : User → BackendState → BackendState × ApiResponse)
        (st : BackendState) (hdr : Option String) (findFail : Bool) (token email : String),
        tokenOf hdr = some token → jwtVerify token JWT_SECRET = some email →
        findRecordByField st.users (fun u => u.email == email) findFail = none →
        protectedRoute handler st hdr findFail =
          (st, ⟨403, [("error", "User not found")]⟩)) := by
  refine ⟨by decide, ?_, ?_, ?_⟩
  · intro handler st findFail
    rfl
  · intro handler st hdr findFail token h1 h2
    simp [protectedRoute, authenticateToken, h1, h2]
  · intro handler st hdr findFail token email h1 h2 h3
    simp [protectedRoute, authenticateToken, h1, h2, h3]

/-- C7 witness: a concrete token-less request to a protected route is
denied 401 with the state unchanged. -/
theorem C7_auth_gate_witness :
    protectedRoute (fun _ st => (st, ⟨200, []⟩)) sampleState none false =
      (sampleState, ⟨401, [("error", "Access token required")]⟩) :=
  C7_auth_gate.2.1 (fun _ st => (st, ⟨200, []⟩)) sampleState false

/-- C9: `POST /api/auth/login` answers the identical
401 `Invalid credentials` response whether the email matches no user or
the email matches but the password fails `bcrypt.compare`. -/
theorem C9_login_uniform_failure (st₁ st₂ : BackendState) (e₁ p₁ e₂ p₂ : String)
    (f₁ f₂ : Bool) (n₁ n₂ : String)
    (h₁ : findRecordByField st₁.users (fun u => u.email == e₁) f₁ = none)
    (u : User)
    (h₂ : findRecordByField st₂.users (fun v => v.email == e₂) f₂ = some u)
    (h₃ : bcryptCompare p₂ u.passwordHash = false) :
    (loginHandler st₁ e₁ p₁ f₁ n₁).2 = (loginHandler st₂ e₂ p₂ f₂ n₂).2 ∧
    (loginHandler st₁ e₁ p₁ f₁ n₁).2 = ⟨401, [("error", "Invalid credentials")]⟩ := by
  simp [loginHandler, h₁, h₂, h₃]

/-- C9 witness: an unknown email and a wrong password against a concrete
user base produce the same 401 body. -/
theorem C9_login_uniform_failure_witness :
    (loginHandler sampleState "nobody@x" "pw" false "t1").2 =
      (loginHandler sampleState "a@b.c" "wrong" false "t1").2 ∧
    (loginHandler sampleState "nobody@x" "pw" false "t1").2 =
      ⟨401, [("error", "Invalid credentials")]⟩ :=
  C9_login_uniform_failure sampleState sampleState "nobody@x" "pw" "a@b.c" "wrong"
    false false "t1" "t1" (by rfl) sampleUser (by rfl) (by rfl)

/-- C10: `findRecordByField` answers `none` when the query errors (its
catch) just as when nothing matches, so `GET /api/products/:barcode`
answers 404 `Product not found` in both situations and never surfaces a
lookup failure as a 500. -/
theorem C10_lookup_failure_is_404 :
    (∀ (recs : List Product) (pred : Product → Bool),
        findRecordByField recs pred true = none) ∧
    (∀ (st : BackendState) (barcode : String) (fail : Bool),
        findRecordByField st.products (fun p => p.barcode == barcode) fail = none →
        getProductByBarcode st barcode fail = ⟨404, [("error", "Product not found")]⟩) ∧
    (∀ (st : BackendState) (barcode : String) (fail : Bool),
        (getProductByBarcode st barcode fail).status ≠ 500) := by
  refine ⟨fun recs pred => rfl, ?_, ?_⟩
  · intro st barcode fail h
    simp [getProductByBarcode, h]
  · intro st barcode fail
    unfold getProductByBarcode
    rcases hv : findRecordByField st.products (fun p => p.barcode == barcode) fail with _ | p <;>
      simp [hv]

/-- C10 witness: with the query erroring, the concrete route answers 404
even though a product with that barcode exists. -/
theorem C10_lookup_failure_is_404_witness :
    findRecordByField sampleState.products (fun p => p.barcode == "111") true = none ∧
    getProductByBarcode sampleState "111" true = ⟨404, [("error", "Product not found")]⟩ :=
  ⟨C10_lookup_failure_is_404.1 sampleState.products (fun p => p.barcode == "111"),
   C10_lookup_failure_is_404.2.1 sampleState "111" true (by rfl)⟩

/-- C8: a successful `POST /api/products` answers 200, appends exactly one
ScanHistory record — `Action` is `update` when a product with the barcode
already existed and `scan` when one was created — by this user at this
time, and rewrites the Users table so the requester's record carries
`TotalScans` one more than the value fetched at authentication and a
refreshed `LastActive`. -/
theorem C8_post_product_bookkeeping (user : User) (body : ProductBody) (now : String)
    (st : BackendState) :
    (postProduct user body false now st).2.status = 200 ∧
    (∃ e : ScanEntry,
        (postProduct user body false now st).1.scanHistory = st.scanHistory ++ [e] ∧
        e.action = (if (st.products.find? (fun p => p.barcode == body.barcode)).isSome
                    then "update" else "scan") ∧
        e.userId = user.id ∧ e.userEmail = user.email ∧ e.timestamp = now) ∧
    (postProduct user body false now st).1.users =
      st.users.map (fun u => if u.id == user.id
          then { u with totalScans := some (user.totalScans.getD 0 + 1), lastActive := now }
          else u) := by
  cases hf : st.products.find? (fun p => p.barcode == body.barcode) with
  | some existing =>
      refine ⟨?_,
        ⟨⟨user.id, some existing.id, existing.barcode, "update", now, user.email, body.name⟩,
          ?_, ?_, rfl, rfl, rfl⟩, ?_⟩ <;>
        simp [postProduct, postUpdatedProduct, findRecordByField, hf, addScanEntry,
          bumpUserScans, updateUserRecord]
  | none =>
      refine ⟨?_,
        ⟨⟨user.id, some (freshId st), body.barcode, "scan", now, user.email, body.name⟩,
          ?_, ?_, rfl, rfl, rfl⟩, ?_⟩ <;>
        simp [postProduct, findRecordByField, hf, addScanEntry, bumpUserScans, updateUserRecord]

/-- The bulk loop visits every item: failing items land in `errors` in
order while processing continues, succeeding ones in `results`. -/
lemma bulkProcess_results_errors (user : User) (now : String) :
    ∀ (items : List BulkItem) (st : BackendState),
      (bulkProcess user now items st).2.1.length =
        (items.filter (fun i => !i.createFails)).length ∧
      (bulkProcess user now items st).2.2 =
        (items.filter (fun i => i.createFails)).map (fun i => (i.barcode, "create failed")) ∧
      (bulkProcess user now items st).2.1.length +
        (bulkProcess user now items st).2.2.length = items.length := by
  intro items
  induction items with
  | nil => intro st; simp [bulkProcess]
  | cons item rest ih =>
      intro st
      by_cases hc : item.createFails
      · have h := ih st
        have e2 : (bulkProcess user now rest st).2.2.length =
            (List.filter (fun i => i.createFails) rest).length := by
          rw [h.2.1]; simp
        simp [bulkProcess, hc, List.filter_cons, h.1, h.2.1]
        omega
      · have h := ih (bulkCreateProduct user item now st).1
        have e2 : (bulkProcess user now rest (bulkCreateProduct user item now st).1).2.2.length =
            (List.filter (fun i => i.createFails) rest).length := by
          rw [h.2.1]; simp
        simp [bulkProcess, hc, List.filter_cons, h.1, h.2.1]
        omega

/-- C5 counterexample: not every route's catch clause logs — for instance
`GET /api/products/:barcode` answers 500 without a `console.error`. -/
theorem C5_not_all_handlers_log :
    catchBehavior.all (fun rc => rc.2.logsError) = false := rfl

/-- C5 (amended): every route's catch answers 500 with the error message
(only some of them log), and the bulk loop catches per item: a failing
barcode is recorded in `errors` while the rest keep being processed, the
response reporting the success and failed counts. -/
theorem C5_catch_pattern :
    (∀ rc ∈ catchBehavior, rc.2.status = 500 ∧ rc.2.bodyIsErrorMessage = true) ∧
    (∀ (user : User) (items : List BulkItem) (now : String) (st : BackendState),
        (bulkRoute user items now st).2.success + (bulkRoute user items now st).2.failed =
          items.length ∧
        (bulkRoute user items now st).2.failed =
          (items.filter (fun i => i.createFails)).length ∧
        (bulkRoute user items now st).2.errorBarcodes =
          (items.filter (fun i => i.createFails)).map (fun i => i.barcode)) := by
  refine ⟨by decide, ?_⟩
  intro user items now st
  have h := bulkProcess_results_errors user now items st
  refine ⟨?_, ?_, ?_⟩
  · simpa [bulkRoute] using h.2.2
  · simp [bulkRoute, h.2.1]
  · simp [bulkRoute, h.2.1]

/-- C5 witness: a concrete bulk request with one failing and one
succeeding barcode processes both and reports one success and one
failure. -/
theorem C5_catch_pattern_witness :
    (bulkRoute sampleUser [⟨"123", none, true⟩, ⟨"456", some "Gizmo", false⟩] "t1" sampleState).2.success +
        (bulkRoute sampleUser [⟨"123", none, true⟩, ⟨"456", some "Gizmo", false⟩] "t1" sampleState).2.failed = 2 ∧
    (bulkRoute sampleUser [⟨"123", none, true⟩, ⟨"456", some "Gizmo", false⟩] "t1" sampleState).2.errorBarcodes =
      ["123"] := by
  have h := C5_catch_pattern.2 sampleUser
    [⟨"123", none, true⟩, ⟨"456", some "Gizmo", false⟩] "t1" sampleState
  exact ⟨h.1, by simpa using h.2.2⟩

/-- Each non-failing bulk item adds one product with its barcode,
regardless of what the Products table already holds. -/
lemma bulkProcess_barcodeCount (user : User) (now : String) (b : String) :
    ∀ (items : List BulkItem) (st : BackendState),
      barcodeCount (bulkProcess user now items st).1 b =
        barcodeCount st b +
          (items.filter (fun i => !i.createFails && i.barcode == b)).length := by
  intro items
  induction items with
  | nil => intro st; simp [bulkProcess]
  | cons item rest ih =>
      intro st
      by_cases hc : item.createFails
      · simp [bulkProcess, hc, List.filter_cons, ih st]
      · have hst : barcodeCount (bulkCreateProduct user item now st).1 b =
            barcodeCount st b + (if item.barcode == b then 1 else 0) := by
          simp [bulkCreateProduct, barcodeCount, List.countP_append, List.countP_singleton]
        by_cases hb : item.barcode == b
        · simp [bulkProcess, hc, List.filter_cons, ih _, hst, hb]
          omega
        · simp [bulkProcess, hc, List.filter_cons, ih _, hst, hb]

/-- C4 counterexample: the bulk route creates unconditionally — running it
on a barcode that already has a product leaves two product records with
that barcode. -/
theorem C4_bulk_duplicate_counterexample :
    barcodeCount sampleState "111" = 1 ∧
    barcodeCount (bulkRoute sampleUser [⟨"111", none, false⟩] "t1" sampleState).1 "111" = 2 :=
  ⟨rfl, rfl⟩

/-- C4 (amended): `POST /api/products` follows lookup-then-create-or-update
and, when record ids are distinct and the lookup does not error, preserves
barcode uniqueness; `POST /api/products/bulk` performs no lookup and
creates one record per non-failing barcode unconditionally, so it grows a
barcode's record count rather than preserving uniqueness. -/
theorem C4_barcode_uniqueness (user : User) (body : ProductBody) (now : String)
    (st : BackendState) (b : String) (items : List BulkItem)
    (hids : idsNodup st) (huniq : barcodeUnique st) :
    barcodeUnique (postProduct user body false now st).1 ∧
    barcodeCount (bulkRoute user items now st).1 b =
      barcodeCount st b +
        (items.filter (fun i => !i.createFails && i.barcode == b)).length := by
  constructor
  · intro c
    cases hf : st.products.find? (fun p => p.barcode == body.barcode) with
    | none =>
        have hprods : (postProduct user body false now st).1.products =
            st.products ++ [⟨freshId st, body.barcode, body.name, user.email, now, now⟩] := by
          simp [postProduct, findRecordByField, hf, addScanEntry, bumpUserScans,
            updateUserRecord]
        rw [barcodeCount, hprods, List.countP_append]
        by_cases hb : body.barcode == c
        · have hbeq : body.barcode = c := by simpa using hb
          have hz : st.products.countP (fun p => p.barcode == c) = 0 := by
            rw [List.countP_eq_zero]
            intro p hp
            have hnone := List.find?_eq_none.mp hf p hp
            simpa [hbeq] using hnone
          simp [List.countP_singleton, hb, hz]
        · have h1 := huniq c
          rw [barcodeCount] at h1
          simp [List.countP_singleton, hb]
          exact h1
    | some existing =>
        have hmem : existing ∈ st.products := List.mem_of_find?_eq_some hf
        have hprods : (postProduct user body false now st).1.products =
            st.products.map (fun p => if p.id == existing.id then
              postUpdatedProduct existing body user now else p) := by
          simp [postProduct, findRecordByField, hf, addScanEntry, bumpUserScans,
            updateUserRecord]
        rw [barcodeCount, hprods, List.countP_map]
        have hcongr : ∀ p ∈ st.products,
            (((fun q : Product => q.barcode == c) ∘ (fun p : Product =>
                if p.id == existing.id then
                  postUpdatedProduct existing body user now else p)) p) ↔
              ((fun q : Product => q.barcode == c) p) := by
          intro p hp
          by_cases hid : p.id = existing.id
          · have hpe : p = existing := List.inj_on_of_nodup_map hids hp hmem hid
            subst hpe
            simp [postUpdatedProduct]
          · simp [hid]
        rw [List.countP_congr hcongr]
        exact huniq c
  · simpa [bulkRoute] using bulkProcess_barcodeCount user now b items st

/-- C4 witness: updating an existing barcode through `POST /api/products`
on a concrete unique-barcode state keeps barcodes unique. -/
theorem C4_barcode_uniqueness_witness :
    barcodeUnique (postProduct sampleUser ⟨"111", "NewName"⟩ false "t1" sampleState).1 :=
  (C4_barcode_uniqueness sampleUser ⟨"111", "NewName"⟩ "t1" sampleState "111" []
    (by unfold idsNodup; decide) (fun _ => List.countP_le_length _)).1

end MiniMe
